import Mathlib

/-!
Shallow embedding of the token-issuance / validation / identity-reconciliation
core of the two-service system (auth-service issuer, backend consumer).

Sources embedded:
* `auth-service/app/core/jwt.py` — `create_access_token`, `hash_refresh_token`,
  `decode_token`, `validate_token`
* `auth-service/app/api/routes/auth.py` — the `/auth/refresh` route
* `backend/app/core/security.py` — `get_public_key`, `clear_public_key_cache`,
  `decode_token`
* `backend/app/core/deps.py` — `get_user_context`, `_find_or_create_user`,
  `_sync_user_claims`

Signatures and SHA-256 are abstracted: a key pair is a natural-number key id
(private half = public half of the same pair), a signed token records the key
id it was signed with, and verification succeeds exactly when the verifying
public key id equals the signing id.  The `python-jose` claim checks
(`require_exp`, `require_iat`, expiry, issuer) are embedded explicitly.
-/

namespace Sut

/-- A decoded JWT payload.  Every claim is optional, as in a JSON object;
`jwt.decode` callers check presence where the code requires it. -/
structure Payload where
  sub : Option String
  email : Option String
  name : Option String
  admin : Option Bool
  iat : Option Int
  exp : Option Int
  iss : Option String
deriving DecidableEq, Repr

/-- A presented token: either not a well-formed JWT at all, or a signed
payload carrying the id of the key pair whose private half signed it. -/
inductive Token where
  | malformed (raw : String)
  | signed (payload : Payload) (keyId : Nat)
deriving DecidableEq, Repr

/-- Failure classes raised by `jose.jwt.decode` (all subclasses of JWTError). -/
inductive JWTError where
  | malformedToken
  | badSignature
  | missingExp
  | missingIat
  | expired
  | wrongIssuer
deriving DecidableEq, Repr

/-- Embedding of `jose.jwt.decode(token, key, algorithms=[RS256],
options=\x7brequire_exp, require_iat?\x7d, issuer=?)` at integer time `now`:
decode structure, verify the signature against `pubKey`, require `exp`
(both call sites in the source pass `require_exp`), optionally require `iat`,
reject when `exp < now`, and when an `issuer` is supplied require the `iss`
claim to equal it. -/
def jose_decode (pubKey : Nat) (requireIat : Bool) (issuer : Option String)
    (now : Int) (t : Token) : Except JWTError Payload :=
  match t with
  | .malformed _ => .error .malformedToken
  | .signed p k =>
    if k ≠ pubKey then .error .badSignature
    else match p.exp with
      | none => .error .missingExp
      | some e =>
        if requireIat ∧ p.iat = none then .error .missingIat
        else if e < now then .error .expired
        else match issuer with
          | none => .ok p
          | some expected =>
            if p.iss = some expected then .ok p else .error .wrongIssuer

namespace AuthJwt

/-- `create_access_token` (auth-service `jwt.py`): builds the payload
`\x7bsub: str(user_id), email, name, admin, iat: now, exp: now + expires_delta,
iss: "auth-service"\x7d` and signs it with the private key. -/
def create_access_token (privKey : Nat) (user_id : Nat) (email : String)
    (is_admin : Bool) (full_name : Option String)
    (now : Int) (expires_delta : Int) : Token :=
  Token.signed
    { sub := some (toString user_id)
      email := some email
      name := full_name
      admin := some is_admin
      iat := some now
      exp := some (now + expires_delta)
      iss := some "auth-service" } privKey

/-- `hash_refresh_token` (auth-service `jwt.py`): SHA-256 hex digest of the
plaintext.  The hash internals are abstracted as an injective tagging
function; the code only ever compares hashes for equality. -/
def hash_refresh_token (token : String) : String :=
  String.append "sha256:" token

/-- `decode_token` (auth-service `jwt.py`): `jwt.decode` against the issuer's
own public key with `require_exp` and `require_iat`, and NO issuer check
(the call passes no `issuer=` argument). -/
def decode_token (pubKey : Nat) (now : Int) (t : Token) :
    Except JWTError Payload :=
  jose_decode pubKey true none now t

/-- `validate_token` (auth-service `jwt.py`): wraps `decode_token`, returning
`(valid, claims, error)`. -/
def validate_token (pubKey : Nat) (now : Int) (t : Token) :
    Bool × Option Payload × Option JWTError :=
  match decode_token pubKey now t with
  | .ok claims => (true, some claims, none)
  | .error e => (false, none, some e)

end AuthJwt

namespace BackendSecurity

/-- The module-level public-key cache of `backend/app/core/security.py`:
`_public_key` and `_public_key_fetched_at`. -/
structure KeyCache where
  _public_key : Option Nat
  _public_key_fetched_at : Int
deriving DecidableEq, Repr

/-- Cache state at module import (`_public_key = None`, fetched_at `0`). -/
def initialCache : KeyCache := ⟨none, 0⟩

/-- `PUBLIC_KEY_TTL_SECONDS = 86400`. -/
def PUBLIC_KEY_TTL_SECONDS : Int := 86400

/-- Python exception classes relevant to `decode_token`: the caught
`JWTError`, `httpx.HTTPError`, and the catch-all `Exception`. -/
inductive PyExn where
  | jwtError (e : JWTError)
  | httpError (msg : String)
  | otherExn (msg : String)
deriving DecidableEq, Repr

/-- Outcome of one `_fetch_public_key()` network call: the key, or a raised
exception (`httpx` transport errors, `raise_for_status`, malformed body). -/
def FetchOutcome := Except PyExn Nat

/-- `get_public_key(force_refresh)` (backend `security.py`), with the ambient
state made explicit.  `cfgKey` is `settings.jwt_public_key` (`none` models
the empty/unset env var, since Python tests its truthiness); `fetch` is the
outcome `_fetch_public_key()` would have.  Returns the key, the new cache
state, and the number of network fetches performed — or propagates the
fetch exception. -/
def get_public_key (cfgKey : Option Nat) (fetch : FetchOutcome) (now : Int)
    (force_refresh : Bool) (st : KeyCache) :
    Except PyExn (Nat × KeyCache × Nat) :=
  match cfgKey with
  | some k =>
    -- Static key from env var — always use, never refresh
    .ok (k, { st with _public_key := some k }, 0)
  | none =>
    let key_expired := (now - st._public_key_fetched_at) > PUBLIC_KEY_TTL_SECONDS
    if st._public_key = none ∨ force_refresh ∨ key_expired then
      match fetch with
      | .error e => .error e
      | .ok k => .ok (k, ⟨some k, now⟩, 1)
    else
      match st._public_key with
      | some k => .ok (k, st, 0)
      | none => .ok (0, st, 0)  -- unreachable: guarded by the branch above

/-- `clear_public_key_cache()` (backend `security.py`). -/
def clear_public_key_cache : KeyCache := ⟨none, 0⟩

/-- The body of the `try:` block of `decode_token` (backend `security.py`):
`get_public_key()` (whose fetch may raise), then `jwt.decode(token, key,
algorithms=[RS256], options=\x7brequire_exp: True\x7d, issuer="auth-service")`.
Any raised exception is the `.error` case. -/
def decode_token_body (cfgKey : Option Nat) (fetch : FetchOutcome)
    (st : KeyCache) (now : Int) (t : Token) : Except PyExn Payload :=
  match get_public_key cfgKey fetch now false st with
  | .error e => .error e
  | .ok (pubKey, _, _) =>
    match jose_decode pubKey false (some "auth-service") now t with
    | .ok p => .ok p
    | .error e => .error (.jwtError e)

/-- `decode_token` (backend `security.py`): runs the body and maps every
exception — `JWTError`, `httpx.HTTPError`, and any other `Exception` —
to `None`. -/
def decode_token (cfgKey : Option Nat) (fetch : FetchOutcome)
    (st : KeyCache) (now : Int) (t : Token) : Option Payload :=
  match decode_token_body cfgKey fetch st now t with
  | .ok p => some p
  | .error _ => none

end BackendSecurity

namespace BackendDeps

/-- `UserContext` (backend `deps.py`): identity info extracted from claims. -/
structure UserContext where
  auth_service_id : Nat
  email : String
  full_name : Option String
  is_admin : Bool
deriving DecidableEq, Repr

/-- Result of the `get_user_context` dependency: a context, the 401
`HTTPException` with its detail string, or an uncaught Python exception
(`int()` on a non-numeric `sub` raises `ValueError`, which nothing in the
function catches). -/
inductive CtxResult where
  | ok (ctx : UserContext)
  | error401 (detail : String)
  | uncaught
deriving DecidableEq, Repr

/-- `get_user_context` (backend `deps.py`): decode the token; on `None`
raise the 401 credentials exception; require `sub` and `email`; build the
context with `int(sub)` and `admin` defaulted to `False`. -/
def get_user_context (cfgKey : Option Nat) (fetch : BackendSecurity.FetchOutcome)
    (st : BackendSecurity.KeyCache) (now : Int) (t : Token) : CtxResult :=
  match BackendSecurity.decode_token cfgKey fetch st now t with
  | none => .error401 "Could not validate credentials"
  | some payload =>
    match payload.sub, payload.email with
    | some user_id, some email =>
      match user_id.toNat? with
      | some n =>
        .ok { auth_service_id := n
              email := email
              full_name := payload.name
              is_admin := payload.admin.getD false }
      | none => .uncaught
    | _, _ => .error401 "Could not validate credentials"

/-- The backend's local `User` record, with the fields `_find_or_create_user`
reads and writes. -/
structure User where
  id : Nat
  email : String
  auth_service_id : Nat
  full_name : Option String
  is_active : Bool
  is_admin : Bool
  hashed_password : String
deriving DecidableEq, Repr

/-- The backend user table: stored rows plus the auto-increment counter. -/
structure Store where
  users : List User
  next_id : Nat
deriving DecidableEq, Repr

/-- `db.query(User).filter(User.email == email).first()`. -/
def findByEmail (s : Store) (email : String) : Option User :=
  s.users.find? (fun u => u.email == email)

/-- Modelled from the spec: the store's insert with the unique-constraint
on `email` (the backend `User` model module `app/models/user.py` is not in
the sources; spec section 6 gives the store contract
`insert(record) -> record | fails(UniqueConstraint)` with email the unique
key, matching the `deps.py` docstring "Uses email as the unique
identifier").  On conflict the transaction rolls back and the store is
unchanged; on success the row is appended with the auto-assigned id. -/
def insertUser (s : Store) (ctx : UserContext) : Except Unit (Store × User) :=
  if s.users.any (fun u => u.email == ctx.email) then
    .error ()  -- IntegrityError; rollback leaves the store unchanged
  else
    let u : User :=
      { id := s.next_id
        email := ctx.email
        auth_service_id := ctx.auth_service_id
        full_name := ctx.full_name
        is_active := true
        is_admin := ctx.is_admin
        hashed_password := "" }
    .ok (⟨s.users ++ [u], s.next_id + 1⟩, u)

/-- Caller-visible outcome of `_find_or_create_user`: the resolved record,
or the defensive `HTTPException(500, "Failed to create user record")`. -/
inductive FocOutcome where
  | found (u : User)
  | serverError500
deriving DecidableEq, Repr

/-- Control state of one in-flight `_find_or_create_user(db, ctx)` call,
between its atomic storage operations (spec section 5 lists storage
operations as the suspension points). -/
inductive CallState where
  | start
  | inserting
  | rereading
  | done (r : FocOutcome)
deriving DecidableEq, Repr

/-- One atomic storage step of `_find_or_create_user`:
`start` runs the lookup by email (found ⇒ return it, else go insert);
`inserting` runs `db.add/commit` (conflict ⇒ rollback and re-read, success
⇒ return the new row); `rereading` repeats the lookup (found ⇒ return it,
absent ⇒ the 500 server error).  A finished call is stuck. -/
def step (s : Store) (ctx : UserContext) : CallState → Store × CallState
  | .start =>
    match findByEmail s ctx.email with
    | some u => (s, .done (.found u))
    | none => (s, .inserting)
  | .inserting =>
    match insertUser s ctx with
    | .ok (s2, u) => (s2, .done (.found u))
    | .error _ => (s, .rereading)
  | .rereading =>
    match findByEmail s ctx.email with
    | some u => (s, .done (.found u))
    | none => (s, .done .serverError500)
  | .done r => (s, .done r)

/-- Run two concurrent `_find_or_create_user` calls under a schedule:
`true` steps call 1, `false` steps call 2. -/
def runTwo (ctx1 ctx2 : UserContext) :
    Store → CallState → CallState → List Bool → Store × CallState × CallState
  | s, st1, st2, [] => (s, st1, st2)
  | s, st1, st2, b :: rest =>
    if b then
      let (s2, st1n) := step s ctx1 st1
      runTwo ctx1 ctx2 s2 st1n st2 rest
    else
      let (s2, st2n) := step s ctx2 st2
      runTwo ctx1 ctx2 s2 st1 st2n rest

/-- `_sync_user_claims` (backend `deps.py`), state-explicit: compares
`auth_service_id`, `full_name`, `is_admin` against the claims, mutating the
row for each difference; returns the row together with whether a
`db.commit()` write was performed (`changed`). -/
def sync_user_claims (user : User) (ctx : UserContext) : User × Bool :=
  let changed := false
  let (user, changed) :=
    if user.auth_service_id != ctx.auth_service_id then
      ({ user with auth_service_id := ctx.auth_service_id }, true)
    else (user, changed)
  let (user, changed) :=
    if user.full_name != ctx.full_name then
      ({ user with full_name := ctx.full_name }, true)
    else (user, changed)
  let (user, changed) :=
    if user.is_admin != ctx.is_admin then
      ({ user with is_admin := ctx.is_admin }, true)
    else (user, changed)
  (user, changed)

/-- Number of stored rows with the given email. -/
def emailCount (s : Store) (e : String) : Nat :=
  (s.users.filter (fun u => u.email == e)).length

/-- What a call's control state guarantees about the shared store, for a
call reconciling email `e`: a call that is re-reading has already observed
a conflicting row (which is never deleted), and a finished call holds a
stored row with its email — never the 500. -/
def okState (e : String) (s : Store) : CallState → Prop
  | .start => True
  | .inserting => True
  | .rereading => ∃ u ∈ s.users, u.email = e
  | .done (.found u) => u ∈ s.users ∧ u.email = e
  | .done .serverError500 => False

/-- Joint invariant of the shared store and the two in-flight calls. -/
def Inv (e : String) (s : Store) (st1 st2 : CallState) : Prop :=
  emailCount s e ≤ 1 ∧ okState e s st1 ∧ okState e s st2

end BackendDeps

namespace AuthRoutes

/-- The auth-service `User` row, with the fields the refresh route reads. -/
structure AuthUser where
  id : Nat
  email : String
  full_name : Option String
  is_admin : Bool
  is_active : Bool
deriving DecidableEq, Repr

/-- A stored `RefreshToken` row (`models/token.py`): the owning user id, the
hash of the plaintext, and the expiry instant. -/
structure RefreshRecord where
  user_id : Nat
  token_hash : String
  expires_at : Int
deriving DecidableEq, Repr

/-- Outcome of the `/auth/refresh` route: a fresh signed access token, or an
`HTTPException(401, detail)`. -/
inductive RefreshOutcome where
  | success (access_token : Token)
  | http401 (detail : String)
deriving DecidableEq, Repr

/-- The route's query: first refresh-token row whose `token_hash` equals the
presented hash and whose `expires_at` is strictly later than now. -/
def findValidRefresh (tokens : List RefreshRecord) (token_hash : String)
    (now : Int) : Option RefreshRecord :=
  tokens.find? (fun r => r.token_hash == token_hash && decide (now < r.expires_at))

/-- `refresh_token` route (auth-service `routes/auth.py`): hash the presented
plaintext, look up a non-expired row with that hash (else 401
"Invalid or expired refresh token"), follow the row's `user` relationship
(`users` is the user table; the foreign key guarantees the row's owner
exists), reject deactivated accounts with 401 "Account is deactivated",
and otherwise issue a new access token for that user via
`create_access_token`.  `access_ttl` is the configured access-token
lifetime and `privKey` the issuer's signing key. -/
def refresh_token_route (users : List AuthUser) (tokens : List RefreshRecord)
    (now : Int) (plaintext : String) (access_ttl : Int) (privKey : Nat) :
    RefreshOutcome :=
  let token_hash := AuthJwt.hash_refresh_token plaintext
  match findValidRefresh tokens token_hash now with
  | none => .http401 "Invalid or expired refresh token"
  | some record =>
    match users.find? (fun u => u.id == record.user_id) with
    | none => .http401 "Invalid or expired refresh token"  -- FK: unreachable
    | some user =>
      if !user.is_active then .http401 "Account is deactivated"
      else .success (AuthJwt.create_access_token privKey user.id user.email
        user.is_admin user.full_name now access_ttl)

end AuthRoutes

/-! ## Theorems -/

open BackendSecurity BackendDeps AuthRoutes

/-- C7: when a public key is supplied via static configuration,
`get_public_key` returns that configured key and performs zero network
fetches, for every cache state, every current time (hence every elapsed
time relative to the TTL), every fetch outcome, and both values of
`force_refresh`. -/
theorem static_key_never_fetches (k : Nat) (fetch : FetchOutcome) (now : Int)
    (force_refresh : Bool) (st : KeyCache) :
    get_public_key (some k) fetch now force_refresh st
      = .ok (k, { st with _public_key := some k }, 0) := rfl

/-- C8: without a static key, the first `get_public_key` call (empty cache)
performs exactly one fetch; a second call within the TTL window performs no
fetch and returns the cached key; a `force_refresh` call performs exactly
one fetch even within the TTL window; and after `clear_public_key_cache`
the next call refetches. -/
theorem uncached_key_fetch_discipline (k k2 : Nat) (t0 t1 t2 : Int)
    (fetch2 : FetchOutcome) (h : t1 - t0 ≤ PUBLIC_KEY_TTL_SECONDS) :
    get_public_key none (.ok k) t0 false initialCache = .ok (k, ⟨some k, t0⟩, 1)
    ∧ get_public_key none fetch2 t1 false ⟨some k, t0⟩ = .ok (k, ⟨some k, t0⟩, 0)
    ∧ get_public_key none (.ok k2) t1 true ⟨some k, t0⟩ = .ok (k2, ⟨some k2, t1⟩, 1)
    ∧ get_public_key none (.ok k2) t2 false clear_public_key_cache
        = .ok (k2, ⟨some k2, t2⟩, 1) := by
  refine ⟨?_, ?_, ?_, ?_⟩
  · simp [get_public_key, initialCache]
  · simp [get_public_key, not_lt.mpr h]
  · simp [get_public_key]
  · simp [get_public_key, clear_public_key_cache]

/-- C8 witness: concrete instance (TTL window 86400, second call 100 s after
the first). -/
theorem uncached_key_fetch_discipline_witness :
    get_public_key none (.ok 5) 0 false initialCache = .ok (5, ⟨some 5, 0⟩, 1)
    ∧ get_public_key none (.error (.httpError "down")) 100 false ⟨some 5, 0⟩
        = .ok (5, ⟨some 5, 0⟩, 0)
    ∧ get_public_key none (.ok 6) 100 true ⟨some 5, 0⟩ = .ok (6, ⟨some 6, 100⟩, 1)
    ∧ get_public_key none (.ok 6) 200 false clear_public_key_cache
        = .ok (6, ⟨some 6, 200⟩, 1) :=
  uncached_key_fetch_discipline 5 6 0 100 200 (.error (.httpError "down"))
    (by decide)

/-- C10: `decode_token` (backend) is total: whenever its body raises any
exception — a `JWTError` (bad signature, expired, wrong issuer, malformed),
an `httpx.HTTPError`, or any other exception — the result is `None`;
whenever the body succeeds the claims dictionary is returned; and in the
first-call state a key-fetch error always yields `None`. -/
theorem decode_token_total (cfgKey : Option Nat) (fetch : FetchOutcome)
    (st : KeyCache) (now : Int) (t : Token) (err : PyExn) :
    (∀ e, decode_token_body cfgKey fetch st now t = .error e →
      BackendSecurity.decode_token cfgKey fetch st now t = none)
    ∧ (∀ p, decode_token_body cfgKey fetch st now t = .ok p →
      BackendSecurity.decode_token cfgKey fetch st now t = some p)
    ∧ BackendSecurity.decode_token none (.error err) initialCache now t = none := by
  refine ⟨?_, ?_, ?_⟩
  · intro e he
    simp [BackendSecurity.decode_token, he]
  · intro p hp
    simp [BackendSecurity.decode_token, hp]
  · simp [BackendSecurity.decode_token, decode_token_body, get_public_key,
      initialCache]

/-- C10 witness: a key-fetch network error maps to `None`, and a well-signed
unexpired token against a statically configured key decodes to its
payload. -/
theorem decode_token_total_witness :
    BackendSecurity.decode_token none (.error (.httpError "timeout"))
      initialCache 0 (.malformed "x") = none
    ∧ BackendSecurity.decode_token (some 3) (.ok 3) initialCache 0
        (.signed ⟨some "1", some "a@b.c", none, some false, some 0, some 9,
          some "auth-service"⟩ 3)
        = some ⟨some "1", some "a@b.c", none, some false, some 0, some 9,
          some "auth-service"⟩ :=
  ⟨(decode_token_total none (.error (.httpError "timeout")) initialCache 0
      (.malformed "x") (.httpError "timeout")).1 (.httpError "timeout") rfl,
   (decode_token_total (some 3) (.ok 3) initialCache 0
      (.signed ⟨some "1", some "a@b.c", none, some false, some 0, some 9,
        some "auth-service"⟩ 3) (.httpError "x")).2.1 _ rfl⟩

/-- C9: whenever token validation fails (the decode routine returns `None` —
which covers malformed structure, expiry, wrong signature and wrong issuer),
`get_user_context` raises exactly the single 401 rejection
"Could not validate credentials". -/
theorem invalid_token_single_rejection (cfgKey : Option Nat)
    (fetch : FetchOutcome) (st : KeyCache) (now : Int) (t : Token)
    (h : BackendSecurity.decode_token cfgKey fetch st now t = none) :
    get_user_context cfgKey fetch st now t
      = .error401 "Could not validate credentials" := by
  simp [get_user_context, h]

/-- C9 witness: a malformed token yields the single 401 rejection. -/
theorem invalid_token_single_rejection_witness :
    get_user_context (some 3) (.ok 3) initialCache 0 (.malformed "junk")
      = .error401 "Could not validate credentials" :=
  invalid_token_single_rejection (some 3) (.ok 3) initialCache 0
    (.malformed "junk") (by decide)

/-- C1: for every `(subject, email, admin)` triple (and name, issue time,
lifetime), validating the token minted by `create_access_token` with the
consumer's `decode_token` — configured with the matching public key — at a
time strictly before the token's expiry returns a claim set whose subject,
email and admin flag match the inputs; at a time strictly after the expiry
validation fails. -/
theorem issue_then_validate_round_trip (key uid : Nat) (email : String)
    (admin : Bool) (nm : Option String) (t0 delta tval : Int)
    (fetch : FetchOutcome) (st : KeyCache) :
    (tval < t0 + delta →
      ∃ p, BackendSecurity.decode_token (some key) fetch st tval
          (AuthJwt.create_access_token key uid email admin nm t0 delta) = some p
        ∧ p.sub = some (toString uid) ∧ p.email = some email
        ∧ p.admin = some admin)
    ∧ (t0 + delta < tval →
      BackendSecurity.decode_token (some key) fetch st tval
          (AuthJwt.create_access_token key uid email admin nm t0 delta)
        = none) := by
  constructor
  · intro h
    have hdec : BackendSecurity.decode_token (some key) fetch st tval
        (AuthJwt.create_access_token key uid email admin nm t0 delta)
        = some ⟨some (toString uid), some email, nm, some admin, some t0,
            some (t0 + delta), some "auth-service"⟩ := by
      simp [BackendSecurity.decode_token, decode_token_body, get_public_key,
        AuthJwt.create_access_token, jose_decode, not_lt.mpr (le_of_lt h)]
    exact ⟨_, hdec, rfl, rfl, rfl⟩
  · intro h
    simp [BackendSecurity.decode_token, decode_token_body, get_public_key,
      AuthJwt.create_access_token, jose_decode, h]

/-- C1 witness: subject 123, `a@x.com`, admin false, issued at 0 with
lifetime 3600; validation succeeds at time 100 with matching claims and
fails at time 4000. -/
theorem issue_then_validate_round_trip_witness :
    (∃ p, BackendSecurity.decode_token (some 7) (.ok 7) initialCache 100
        (AuthJwt.create_access_token 7 123 "a@x.com" false none 0 3600) = some p
      ∧ p.sub = some (toString 123) ∧ p.email = some "a@x.com"
      ∧ p.admin = some false)
    ∧ BackendSecurity.decode_token (some 7) (.ok 7) initialCache 4000
        (AuthJwt.create_access_token 7 123 "a@x.com" false none 0 3600)
      = none :=
  ⟨(issue_then_validate_round_trip 7 123 "a@x.com" false none 0 3600 100
      (.ok 7) initialCache).1 (by decide),
   (issue_then_validate_round_trip 7 123 "a@x.com" false none 0 3600 4000
      (.ok 7) initialCache).2 (by decide)⟩

/-- C2 counterexample: a token signed with the issuer's correct key, with a
present `iat`, an unexpired `exp`, and `iss = "evil-issuer"` (not the
expected `"auth-service"`) is ACCEPTED by the auth-service's own
`validate_token` path (exposed via `POST /internal/validate`), because its
`decode_token` passes no `issuer=` argument to `jwt.decode`.  So a token
with a wrong issuer tag does not fail on every validation path the system
exposes. -/
theorem wrong_issuer_accepted_by_internal_validate :
    (Payload.iss ⟨some "1", some "a@b.c", none, some false, some 0, some 100,
        some "evil-issuer"⟩ ≠ some "auth-service")
    ∧ AuthJwt.validate_token 0 0
        (.signed ⟨some "1", some "a@b.c", none, some false, some 0, some 100,
          some "evil-issuer"⟩ 0)
      = (true,
         some ⟨some "1", some "a@b.c", none, some false, some 0, some 100,
           some "evil-issuer"⟩,
         none) := by
  exact ⟨by decide, rfl⟩

/-- Helper: `jwt.decode` with an expected issuer rejects every signed token
whose `iss` claim differs from it, whatever else holds. -/
theorem jose_decode_wrong_iss (pk : Nat) (ri : Bool) (now : Int) (p : Payload)
    (k : Nat) (h : p.iss ≠ some "auth-service") :
    ∃ e, jose_decode pk ri (some "auth-service") now (.signed p k)
      = .error e := by
  simp only [jose_decode]
  repeat' split
  all_goals exact ⟨_, rfl⟩

/-- C2 (amended): for every token whose `iss` claim is anything other than
the expected `"auth-service"` tag, the CONSUMER's validation path
(`decode_token` in the backend) fails, even when signature, expiry and all
other claims are well-formed — for every key configuration, fetch outcome,
cache state and time.  (The issuer's own `validate_token` path does not
check the issuer tag; see the counterexample.) -/
theorem wrong_issuer_rejected_by_consumer (cfgKey : Option Nat)
    (fetch : FetchOutcome) (st : KeyCache) (now : Int) (p : Payload) (k : Nat)
    (h : p.iss ≠ some "auth-service") :
    BackendSecurity.decode_token cfgKey fetch st now (.signed p k) = none := by
  unfold BackendSecurity.decode_token decode_token_body
  cases hk : get_public_key cfgKey fetch now false st with
  | error e => rfl
  | ok v =>
    obtain ⟨pk, st2, n⟩ := v
    obtain ⟨e, he⟩ := jose_decode_wrong_iss pk false now p k h
    simp [he]

/-- C2 amended-claim witness: a well-signed unexpired token with
`iss = "evil-issuer"` is rejected by the consumer's `decode_token`. -/
theorem wrong_issuer_rejected_by_consumer_witness :
    BackendSecurity.decode_token (some 0) (.ok 0) initialCache 0
      (.signed ⟨some "1", some "a@b.c", none, some false, some 0, some 100,
        some "evil-issuer"⟩ 0) = none :=
  wrong_issuer_rejected_by_consumer (some 0) (.ok 0) initialCache 0
    ⟨some "1", some "a@b.c", none, some false, some 0, some 100,
      some "evil-issuer"⟩ 0 (by decide)

/-- C6: `_sync_user_claims` makes the resolved record's `auth_service_id`,
`full_name` and `is_admin` equal the claims (leaving every other field as
it was), performs a persistence write exactly when at least one of the
three differs, and when it performs no write the record is unchanged. -/
theorem sync_writes_iff_changed (user : User) (ctx : UserContext) :
    ((sync_user_claims user ctx).1.auth_service_id = ctx.auth_service_id
      ∧ (sync_user_claims user ctx).1.full_name = ctx.full_name
      ∧ (sync_user_claims user ctx).1.is_admin = ctx.is_admin
      ∧ (sync_user_claims user ctx).1.id = user.id
      ∧ (sync_user_claims user ctx).1.email = user.email
      ∧ (sync_user_claims user ctx).1.is_active = user.is_active
      ∧ (sync_user_claims user ctx).1.hashed_password = user.hashed_password)
    ∧ ((sync_user_claims user ctx).2 = false ↔
        (user.auth_service_id = ctx.auth_service_id
          ∧ user.full_name = ctx.full_name ∧ user.is_admin = ctx.is_admin))
    ∧ ((sync_user_claims user ctx).2 = false →
        (sync_user_claims user ctx).1 = user) := by
  by_cases h1 : user.auth_service_id = ctx.auth_service_id <;>
    by_cases h2 : user.full_name = ctx.full_name <;>
      by_cases h3 : user.is_admin = ctx.is_admin <;>
        simp [sync_user_claims, h1, h2, h3]

/-- C6 witness: a record whose admin flag differs from the claims is
written and updated; a record already matching the claims is returned
unchanged with no write. -/
theorem sync_writes_iff_changed_witness :
    (sync_user_claims ⟨1, "a@x.com", 9, none, true, false, ""⟩
        ⟨9, "a@x.com", none, true⟩).1.is_admin = true
    ∧ ((sync_user_claims ⟨1, "a@x.com", 9, none, true, false, ""⟩
        ⟨9, "a@x.com", none, false⟩).2 = false ↔
        ((9 : Nat) = 9 ∧ (none : Option String) = none ∧ false = false)) :=
  ⟨(sync_writes_iff_changed ⟨1, "a@x.com", 9, none, true, false, ""⟩
      ⟨9, "a@x.com", none, true⟩).1.2.2.1,
   (sync_writes_iff_changed ⟨1, "a@x.com", 9, none, true, false, ""⟩
      ⟨9, "a@x.com", none, false⟩).2.1⟩

/-- C3 counterexample: a refresh token that was issued, hash-matches its
stored record and is unexpired (record expires at 100, presented at time 0)
is nevertheless REJECTED when the owning account is deactivated: the route
answers 401 "Account is deactivated" instead of returning a fresh access
token.  So "for every valid unexpired refresh token it succeeds" is false
as stated. -/
theorem valid_refresh_of_inactive_user_rejected :
    findValidRefresh [⟨7, AuthJwt.hash_refresh_token "tok", 100⟩]
        (AuthJwt.hash_refresh_token "tok") 0
      = some ⟨7, AuthJwt.hash_refresh_token "tok", 100⟩
    ∧ refresh_token_route [⟨7, "a@x.com", none, false, false⟩]
        [⟨7, AuthJwt.hash_refresh_token "tok", 100⟩] 0 "tok" 3600 0
      = .http401 "Account is deactivated" := by
  exact ⟨by decide, by decide⟩

/-- C3 (amended): `redeem_refresh_token` (the `/auth/refresh` route) fails
with 401 "Invalid or expired refresh token" when no stored record
hash-matches the presented plaintext (covering tokens never issued and
plaintexts that match no record), and likewise when every hash-matching
record is past its expiry; for a valid unexpired refresh token it succeeds
— PROVIDED the owning account is active — returning a fresh access token
bound to the subject that owns the stored record. -/
theorem refresh_token_route_spec (users : List AuthUser)
    (tokens : List RefreshRecord) (now : Int) (plaintext : String)
    (ttl : Int) (key : Nat) :
    ((∀ r ∈ tokens, r.token_hash ≠ AuthJwt.hash_refresh_token plaintext) →
      refresh_token_route users tokens now plaintext ttl key
        = .http401 "Invalid or expired refresh token")
    ∧ ((∀ r ∈ tokens,
          r.token_hash = AuthJwt.hash_refresh_token plaintext →
            r.expires_at ≤ now) →
      refresh_token_route users tokens now plaintext ttl key
        = .http401 "Invalid or expired refresh token")
    ∧ (∀ r u,
        findValidRefresh tokens (AuthJwt.hash_refresh_token plaintext) now
          = some r →
        users.find? (fun x => x.id == r.user_id) = some u →
        u.is_active = true →
        u.id = r.user_id ∧
        refresh_token_route users tokens now plaintext ttl key
          = .success (AuthJwt.create_access_token key u.id u.email
              u.is_admin u.full_name now ttl)) := by
  refine ⟨?_, ?_, ?_⟩
  · intro h
    have hnone : findValidRefresh tokens
        (AuthJwt.hash_refresh_token plaintext) now = none := by
      rw [findValidRefresh, List.find?_eq_none]
      intro r hr
      simp [h r hr]
    simp [refresh_token_route, hnone]
  · intro h
    have hnone : findValidRefresh tokens
        (AuthJwt.hash_refresh_token plaintext) now = none := by
      rw [findValidRefresh, List.find?_eq_none]
      intro r hr
      simp only [Bool.and_eq_true, beq_iff_eq, decide_eq_true_eq, not_and]
      intro hh
      exact not_lt.mpr (h r hr hh)
    simp [refresh_token_route, hnone]
  · intro r u hr hu hact
    have hid : u.id = r.user_id := by
      have := List.find?_some hu
      simpa using this
    refine ⟨hid, ?_⟩
    simp [refresh_token_route, hr, hu, hact]

/-- C3 amended-claim witness: concrete instances of the three branches —
no hash-matching record, an expired matching record, and a valid unexpired
record owned by an active user. -/
theorem refresh_token_route_spec_witness :
    refresh_token_route [⟨7, "a@x.com", none, false, true⟩]
        [⟨7, AuthJwt.hash_refresh_token "other", 100⟩] 0 "tok" 3600 0
      = .http401 "Invalid or expired refresh token"
    ∧ refresh_token_route [⟨7, "a@x.com", none, false, true⟩]
        [⟨7, AuthJwt.hash_refresh_token "tok", -5⟩] 0 "tok" 3600 0
      = .http401 "Invalid or expired refresh token"
    ∧ ((7 : Nat) = 7 ∧
        refresh_token_route [⟨7, "a@x.com", none, false, true⟩]
          [⟨7, AuthJwt.hash_refresh_token "tok", 100⟩] 0 "tok" 3600 0
        = .success (AuthJwt.create_access_token 0 7 "a@x.com" false none
            0 3600)) :=
  ⟨(refresh_token_route_spec [⟨7, "a@x.com", none, false, true⟩]
      [⟨7, AuthJwt.hash_refresh_token "other", 100⟩] 0 "tok" 3600 0).1
      (by decide),
   (refresh_token_route_spec [⟨7, "a@x.com", none, false, true⟩]
      [⟨7, AuthJwt.hash_refresh_token "tok", -5⟩] 0 "tok" 3600 0).2.1
      (by decide),
   (refresh_token_route_spec [⟨7, "a@x.com", none, false, true⟩]
      [⟨7, AuthJwt.hash_refresh_token "tok", 100⟩] 0 "tok" 3600 0).2.2
      ⟨7, AuthJwt.hash_refresh_token "tok", 100⟩
      ⟨7, "a@x.com", none, false, true⟩ (by decide) (by decide) rfl⟩

/-- C4: in `_find_or_create_user`, an insert that hits the uniqueness
conflict (a row with the claim email already exists) leaves the store
unchanged (rollback) and moves the call to the re-read; the re-read returns
the existing record without any error when one exists, and produces the
internal 500 fault only when the row is still absent; and the 500 after an
empty re-read is the only transition of the call that surfaces an error to
the caller. -/
theorem find_or_create_conflict_resolution (s : Store) (ctx : UserContext) :
    ((∃ u ∈ s.users, u.email = ctx.email) →
      step s ctx .inserting = (s, .rereading))
    ∧ (∀ u, findByEmail s ctx.email = some u →
      step s ctx .rereading = (s, .done (.found u)))
    ∧ (findByEmail s ctx.email = none →
      step s ctx .rereading = (s, .done .serverError500))
    ∧ (∀ st s2, st ≠ .done .serverError500 →
        step s ctx st = (s2, .done .serverError500) →
        st = .rereading ∧ findByEmail s ctx.email = none ∧ s2 = s) := by
  refine ⟨?_, ?_, ?_, ?_⟩
  · rintro ⟨u, hu, he⟩
    have hany : s.users.any (fun v => v.email == ctx.email) = true := by
      rw [List.any_eq_true]
      exact ⟨u, hu, by simp [he]⟩
    simp [step, insertUser, hany]
  · intro u hu
    simp [step, hu]
  · intro h
    simp [step, h]
  · intro st s2 hne hstep
    cases st with
    | start =>
      cases hfind : findByEmail s ctx.email with
      | none => simp [step, hfind] at hstep
      | some u => simp [step, hfind] at hstep
    | inserting =>
      cases hins : insertUser s ctx with
      | error e => simp [step, hins] at hstep
      | ok v => simp [step, hins] at hstep
    | rereading =>
      cases hfind : findByEmail s ctx.email with
      | none =>
        simp [step, hfind] at hstep
        exact ⟨rfl, rfl, hstep.symm⟩
      | some u => simp [step, hfind] at hstep
    | done r =>
      simp [step] at hstep
      exact absurd (hstep.2 ▸ hne) (fun hcon => hcon rfl)

/-- C4 witness: with one stored row for `a@x.com`, an insert for the same
email conflicts and is discarded, the re-read returns the stored row; with
an empty store the re-read yields the 500. -/
theorem find_or_create_conflict_resolution_witness :
    step ⟨[⟨1, "a@x.com", 9, none, true, false, ""⟩], 2⟩
        ⟨9, "a@x.com", none, false⟩ .inserting
      = (⟨[⟨1, "a@x.com", 9, none, true, false, ""⟩], 2⟩, .rereading)
    ∧ step ⟨[⟨1, "a@x.com", 9, none, true, false, ""⟩], 2⟩
        ⟨9, "a@x.com", none, false⟩ .rereading
      = (⟨[⟨1, "a@x.com", 9, none, true, false, ""⟩], 2⟩,
         .done (.found ⟨1, "a@x.com", 9, none, true, false, ""⟩))
    ∧ step ⟨[], 1⟩ ⟨9, "a@x.com", none, false⟩ .rereading
      = (⟨[], 1⟩, .done .serverError500) :=
  ⟨(find_or_create_conflict_resolution ⟨[⟨1, "a@x.com", 9, none, true, false,
      ""⟩], 2⟩ ⟨9, "a@x.com", none, false⟩).1
      ⟨⟨1, "a@x.com", 9, none, true, false, ""⟩, by decide, rfl⟩,
   (find_or_create_conflict_resolution ⟨[⟨1, "a@x.com", 9, none, true, false,
      ""⟩], 2⟩ ⟨9, "a@x.com", none, false⟩).2.1
      ⟨1, "a@x.com", 9, none, true, false, ""⟩ (by decide),
   (find_or_create_conflict_resolution ⟨[], 1⟩
      ⟨9, "a@x.com", none, false⟩).2.2.1 rfl⟩

/-- Helper: a successful insert appends exactly the row built from the
claims, with the auto-assigned id, and certifies no row with that email
existed. -/
theorem insertUser_ok_iff (s : Store) (ctx : UserContext) (s2 : Store)
    (u : User) (h : insertUser s ctx = .ok (s2, u)) :
    s.users.any (fun v => v.email == ctx.email) = false
    ∧ s2.users = s.users ++ [u] ∧ u.email = ctx.email := by
  unfold insertUser at h
  split at h
  · cases h
  · rename_i hany
    injection h with h2
    obtain ⟨hs, hu⟩ := Prod.mk.injEq .. ▸ h2
    refine ⟨Bool.not_eq_true _ ▸ hany, ?_, ?_⟩
    · rw [← hs]
      rw [← hu]
    · rw [← hu]

/-- Helper: a failed insert means a row with that email already existed. -/
theorem insertUser_error_iff (s : Store) (ctx : UserContext) :
    insertUser s ctx = .error ()
      ↔ s.users.any (fun v => v.email == ctx.email) = true := by
  unfold insertUser
  split
  · simp [*]
  · rename_i hany
    simp [hany]

/-- Helper: the store only grows across a step — rows are never removed. -/
theorem step_fst_mono (s : Store) (ctx : UserContext) (st : CallState) :
    ∀ u ∈ s.users, u ∈ (step s ctx st).1.users := by
  intro u hu
  cases st with
  | start => cases hfind : findByEmail s ctx.email <;> simp [step, hfind, hu]
  | inserting =>
    cases hins : insertUser s ctx with
    | error e => simp [step, hins, hu]
    | ok v =>
      obtain ⟨s2, unew⟩ := v
      obtain ⟨-, happ, -⟩ := insertUser_ok_iff s ctx s2 unew hins
      simp [step, hins, happ, hu]
  | rereading => cases hfind : findByEmail s ctx.email <;> simp [step, hfind, hu]
  | done r => simp [step, hu]

/-- Helper: `okState` is stable under growing the store. -/
theorem okState_mono (e : String) (s s2 : Store) (st : CallState)
    (hsub : ∀ u ∈ s.users, u ∈ s2.users) (h : okState e s st) :
    okState e s2 st := by
  cases st with
  | start => trivial
  | inserting => trivial
  | rereading =>
    obtain ⟨u, hu, he⟩ := h
    exact ⟨u, hsub u hu, he⟩
  | done r =>
    cases r with
    | found u => exact ⟨hsub u h.1, h.2⟩
    | serverError500 => exact h.elim

/-- Helper: an email absent per `findByEmail` has zero stored rows. -/
theorem emailCount_eq_zero (s : Store) (e : String)
    (h : findByEmail s e = none) : emailCount s e = 0 := by
  rw [findByEmail, List.find?_eq_none] at h
  unfold emailCount
  rw [List.length_eq_zero]
  rw [List.filter_eq_nil_iff]
  exact h

/-- Helper: a step never produces a second row for the contended email. -/
theorem step_emailCount (e : String) (s : Store) (ctx : UserContext)
    (st : CallState) (hctx : ctx.email = e) (h : emailCount s e ≤ 1) :
    emailCount (step s ctx st).1 e ≤ 1 := by
  cases st with
  | start => cases hfind : findByEmail s ctx.email <;> simpa [step, hfind]
  | inserting =>
    cases hins : insertUser s ctx with
    | error e2 => simpa [step, hins]
    | ok v =>
      obtain ⟨s2, unew⟩ := v
      obtain ⟨hany, happ, hmail⟩ := insertUser_ok_iff s ctx s2 unew hins
      have hzero : emailCount s e = 0 := by
        unfold emailCount
        rw [List.length_eq_zero, List.filter_eq_nil_iff]
        intro a ha
        have := (List.any_eq_false.mp hany) a ha
        simpa [hctx] using this
      have : emailCount s2 e ≤ 1 := by
        unfold emailCount at hzero ⊢
        rw [happ, List.filter_append, List.length_append, hzero]
        simp [List.filter]
        split <;> simp
      simpa [step, hins]
  | rereading => cases hfind : findByEmail s ctx.email <;> simpa [step, hfind]
  | done r => simpa [step]

/-- Helper: one atomic step of either call preserves the joint invariant:
the stepping call stays consistent with the store, the store stays at most
one row for the email, and the idle call's consistency survives the store
change. -/
theorem step_preserves_inv (e : String) (s : Store) (ctx : UserContext)
    (st other : CallState) (hctx : ctx.email = e)
    (hcount : emailCount s e ≤ 1) (hok : okState e s st)
    (hother : okState e s other) :
    emailCount (step s ctx st).1 e ≤ 1
    ∧ okState e (step s ctx st).1 (step s ctx st).2
    ∧ okState e (step s ctx st).1 other := by
  refine ⟨step_emailCount e s ctx st hctx hcount, ?_,
    okState_mono e s _ other (step_fst_mono s ctx st) hother⟩
  cases st with
  | start =>
    cases hfind : findByEmail s ctx.email with
    | none => simp [step, hfind, okState]
    | some u =>
      have hm : u ∈ s.users := List.mem_of_find?_eq_some hfind
      have he : u.email = e := by
        have := List.find?_some hfind
        simpa [hctx] using this
      simp only [step, hfind]
      exact ⟨hm, he⟩
  | inserting =>
    cases hins : insertUser s ctx with
    | error e2 =>
      have hany : s.users.any (fun v => v.email == ctx.email) = true := by
        have : insertUser s ctx = .error () := by
          cases e2
          exact hins
        exact (insertUser_error_iff s ctx).mp this
      obtain ⟨v, hv, hveq⟩ := List.any_eq_true.mp hany
      simp only [step, hins]
      exact ⟨v, hv, by simpa [hctx] using hveq⟩
    | ok w =>
      obtain ⟨s2, unew⟩ := w
      obtain ⟨-, happ, hmail⟩ := insertUser_ok_iff s ctx s2 unew hins
      simp only [step, hins]
      constructor
      · rw [happ]
        simp
      · rw [hmail, hctx]
  | rereading =>
    obtain ⟨u, hu, he⟩ := hok
    cases hfind : findByEmail s ctx.email with
    | none =>
      exfalso
      rw [findByEmail, List.find?_eq_none] at hfind
      exact hfind u hu (by simp [he, hctx])
    | some w =>
      have hm : w ∈ s.users := List.mem_of_find?_eq_some hfind
      have hwe : w.email = e := by
        have := List.find?_some hfind
        simpa [hctx] using this
      simp only [step, hfind]
      exact ⟨hm, hwe⟩
  | done r => simpa [step] using hok

/-- Helper: unfolding one scheduled step of the two-call run. -/
theorem runTwo_cons (ctx1 ctx2 : UserContext) (s : Store)
    (st1 st2 : CallState) (b : Bool) (rest : List Bool) :
    runTwo ctx1 ctx2 s st1 st2 (b :: rest)
      = if b then
          runTwo ctx1 ctx2 (step s ctx1 st1).1 (step s ctx1 st1).2 st2 rest
        else
          runTwo ctx1 ctx2 (step s ctx2 st2).1 st1 (step s ctx2 st2).2 rest := by
  cases b <;> rfl

/-- Helper: every schedule preserves the joint invariant. -/
theorem runTwo_preserves_inv (ctx1 ctx2 : UserContext) (e : String)
    (h1 : ctx1.email = e) (h2 : ctx2.email = e) (sched : List Bool) :
    ∀ (s : Store) (st1 st2 : CallState), Inv e s st1 st2 →
      Inv e (runTwo ctx1 ctx2 s st1 st2 sched).1
        (runTwo ctx1 ctx2 s st1 st2 sched).2.1
        (runTwo ctx1 ctx2 s st1 st2 sched).2.2 := by
  induction sched with
  | nil =>
    intro s st1 st2 h
    simpa [runTwo] using h
  | cons b rest ih =>
    intro s st1 st2 h
    obtain ⟨hc, ho1, ho2⟩ := h
    rw [runTwo_cons]
    cases b with
    | true =>
      rw [if_pos rfl]
      obtain ⟨hc2, hok2, hother2⟩ :=
        step_preserves_inv e s ctx1 st1 st2 h1 hc ho1 ho2
      exact ih _ _ _ ⟨hc2, hok2, hother2⟩
    | false =>
      rw [if_neg Bool.false_ne_true]
      obtain ⟨hc2, hok2, hother2⟩ :=
        step_preserves_inv e s ctx2 st2 st1 h2 hc ho2 ho1
      exact ih _ _ _ ⟨hc2, hother2, hok2⟩

/-- Helper: a list of length at most one has at most one member. -/
theorem eq_of_mem_of_length_le_one {α : Type} {l : List α} (h : l.length ≤ 1)
    {a b : α} (ha : a ∈ l) (hb : b ∈ l) : a = b := by
  cases l with
  | nil => cases ha
  | cons x t =>
    cases t with
    | nil =>
      rw [List.mem_singleton] at ha hb
      rw [ha, hb]
    | cons y t2 => simp at h

/-- C5: for every pair of concurrent `_find_or_create_user` calls whose
validated claim sets carry the same email, starting from a store where that
email is absent, and for EVERY interleaving of their atomic storage
operations: once both calls have completed, neither saw an error, both
returned the very same record (hence records with identical stored fields),
that record is in the store, and the store holds exactly one record with
that email. -/
theorem concurrent_reconcile_single_record (ctx1 ctx2 : UserContext)
    (s0 : Store) (sched : List Bool) (o1 o2 : FocOutcome)
    (hemail : ctx1.email = ctx2.email)
    (hfresh : findByEmail s0 ctx1.email = none)
    (hdone1 : (runTwo ctx1 ctx2 s0 .start .start sched).2.1 = .done o1)
    (hdone2 : (runTwo ctx1 ctx2 s0 .start .start sched).2.2 = .done o2) :
    ∃ u : User,
      o1 = .found u ∧ o2 = .found u
      ∧ u ∈ (runTwo ctx1 ctx2 s0 .start .start sched).1.users
      ∧ emailCount (runTwo ctx1 ctx2 s0 .start .start sched).1 ctx1.email
          = 1 := by
  have hinv0 : Inv ctx1.email s0 .start .start :=
    ⟨by rw [emailCount_eq_zero s0 ctx1.email hfresh]; omega, trivial, trivial⟩
  have hinv := runTwo_preserves_inv ctx1 ctx2 ctx1.email rfl hemail.symm
    sched s0 .start .start hinv0
  obtain ⟨hcount, hok1, hok2⟩ := hinv
  rw [hdone1] at hok1
  rw [hdone2] at hok2
  cases o1 with
  | serverError500 => exact hok1.elim
  | found u1 =>
    cases o2 with
    | serverError500 => exact hok2.elim
    | found u2 =>
      obtain ⟨hm1, he1⟩ := hok1
      obtain ⟨hm2, he2⟩ := hok2
      have hf1 : u1 ∈ (runTwo ctx1 ctx2 s0 .start .start sched).1.users.filter
          (fun v => v.email == ctx1.email) :=
        List.mem_filter.mpr ⟨hm1, by simp [he1]⟩
      have hf2 : u2 ∈ (runTwo ctx1 ctx2 s0 .start .start sched).1.users.filter
          (fun v => v.email == ctx1.email) :=
        List.mem_filter.mpr ⟨hm2, by simp [he2]⟩
      have heq : u1 = u2 := eq_of_mem_of_length_le_one hcount hf1 hf2
      refine ⟨u1, rfl, by rw [heq], hm1, ?_⟩
      have hlen1 : 1 ≤ emailCount (runTwo ctx1 ctx2 s0 .start .start sched).1
          ctx1.email := by
        unfold emailCount
        exact List.length_pos.mpr (List.ne_nil_of_mem hf1)
      omega

/-- C5 witness: two calls with the same new email `a@x.com` (differing admin
flags) on an empty store, under the schedule where call 1 finds-none,
inserts, and call 2 then finds the inserted row: both return the single
stored record. -/
theorem concurrent_reconcile_single_record_witness :
    ∃ u : User,
      FocOutcome.found ⟨1, "a@x.com", 9, none, true, false, ""⟩ = .found u
      ∧ FocOutcome.found ⟨1, "a@x.com", 9, none, true, false, ""⟩ = .found u
      ∧ u ∈ (runTwo ⟨9, "a@x.com", none, false⟩ ⟨9, "a@x.com", none, true⟩
          ⟨[], 1⟩ .start .start [true, true, false]).1.users
      ∧ emailCount (runTwo ⟨9, "a@x.com", none, false⟩
          ⟨9, "a@x.com", none, true⟩ ⟨[], 1⟩ .start .start
          [true, true, false]).1 "a@x.com" = 1 :=
  concurrent_reconcile_single_record ⟨9, "a@x.com", none, false⟩
    ⟨9, "a@x.com", none, true⟩ ⟨[], 1⟩ [true, true, false]
    (.found ⟨1, "a@x.com", 9, none, true, false, ""⟩)
    (.found ⟨1, "a@x.com", 9, none, true, false, ""⟩)
    rfl rfl (by decide) (by decide)

end Sut
